import Mathlib

/-!
Shallow embedding of the browser-side seat-booking logic of the bus_ticket
repository, covering the two front-end controllers:

* src/bus/static/js/seat-booking.js — SeatBookingManager and
  SeatSelectionHandler (bounded local selection, pre-submit seat re-check,
  single-flight booking guard);
* src/unnamed/part_000 — RealTimeSeatManager (server-confirmed temporary
  seat selection, snapshot-driven rendering, hold-expiry countdown).

JavaScript Sets are modelled as insertion-ordered duplicate-free lists
(JS Set preserves insertion order); Maps as association lists; every
network interaction is made explicit: each operation takes the server's
response as a parameter and returns the list of requests it issued, so
"no network call" is a statement about the returned request trace.
Timestamps are integer milliseconds.
-/

namespace BusTicket

/-- JS `Set.add`: appends only when absent (insertion order preserved). -/
def setAdd (s : List Nat) (x : Nat) : List Nat :=
  if s.contains x then s else s ++ [x]

/-- JS `Set.delete`: removes the element. -/
def setDelete (s : List Nat) (x : Nat) : List Nat :=
  s.filter (fun y => y ≠ x)

/-- JS string truthiness for a DOM field lookup: `undefined`/`null`/empty are
falsy, every other string truthy. -/
def truthy : Option String → Bool
  | none => false
  | some s => s ≠ ""

/-- JS `x || d` on an optional string: falls back when absent or empty. -/
def jsOrElse (x : Option String) (d : String) : String :=
  match x with
  | none => d
  | some s => if s = "" then d else s

/-- JS `parseInt` on the numeric strings this page produces (non-numeric
input, which parseInt maps to NaN, collapses to 0 — unexercised here). -/
def jsParseInt (s : String) : Nat :=
  (s.toNat?).getD 0

/-- JS `Array.join(sep)` on a numeric array. -/
def jsJoin (xs : List Nat) (sep : String) : String :=
  String.intercalate sep (xs.map toString)

/-- One temporary-hold record from the seat_status response:
`{user_id, username, expires_at}` (expires_at in epoch milliseconds). -/
structure HoldInfo where
  user_id : Nat
  username : String
  expires_at : Int
  deriving Repr, DecidableEq

/-- Association-list lookup modelling `Map.get` (part_000 keeps
`tempSelections` as a `Map` keyed by seat number). -/
def mapGet (m : List (Nat × HoldInfo)) (k : Nat) : Option HoldInfo :=
  match m.find? (fun p => p.1 = k) with
  | some p => some p.2
  | none => none

/-- `RealTimeSeatManager.getTimeUntilExpiry` (src/unnamed/part_000 lines
296-305): `diffMs = expiry - now`; `<= 0` renders "expired", otherwise
`Math.ceil(diffMs / (1000 * 60))` whole minutes with an "s" unless the
count is exactly 1. -/
def getTimeUntilExpiry (expiresAt now : Int) : String :=
  let diffMs : Int := expiresAt - now
  if diffMs ≤ 0 then "expired"
  else
    let diffMins : Int := ⌈(diffMs : ℚ) / (1000 * 60)⌉
    toString diffMins ++ " min" ++ (if diffMins ≠ 1 then "s" else "")

/-- Countdown as the spec sentence behind claim C8 words it: the
difference "floor-divided into whole minutes", clamped to "expired" when
≤ 0 (spec-side definition, for comparison with the code's). -/
def floorCountdownSpec (expiresAt now : Int) : String :=
  let diffMs : Int := expiresAt - now
  if diffMs ≤ 0 then "expired"
  else
    let diffMins : Int := ⌊(diffMs : ℚ) / (1000 * 60)⌋
    toString diffMins ++ " min" ++ (if diffMins ≠ 1 then "s" else "")

/-- One HTTP request issued by the client, as observable trace events. -/
inductive Request where
  /-- POST /api/temporary-selections/select_seat/ -/
  | selectSeatReq (scheduleId seatNumber : Nat)
  /-- POST /api/temporary-selections/deselect_seat/ -/
  | deselectSeatReq (scheduleId seatNumber : Nat)
  /-- GET /api/schedules/{id}/seat_status/ -/
  | seatStatusReq (scheduleId : Nat)
  /-- GET /api/schedules/{id}/seat_availability/ -/
  | seatAvailabilityReq (scheduleId : String)
  /-- POST /api/schedules/{id}/check_seats/ -/
  | checkSeatsReq (scheduleId : String) (seatNumbers : List Nat)
  /-- POST /api/bookings/book_seats/ -/
  | bookSeatsReq (scheduleId : Nat) (passengerName passengerEmail passengerPhone : String)
      (seatNumbers : List Nat)
  deriving Repr, DecidableEq

/-- A notification shown by `RealTimeSeatManager.showNotification`:
message text and type tag. -/
structure Notification where
  message : String
  kind : String
  deriving Repr, DecidableEq

/-- Mutable state of `RealTimeSeatManager` (src/unnamed/part_000,
constructor lines 5-24): the user's own selection set plus the latest
seat-status snapshot. -/
structure RTState where
  scheduleId : Nat
  userId : Nat
  selectedSeats : List Nat
  tempSelections : List (Nat × HoldInfo)
  bookedSeats : List Nat
  availableSeats : List Nat
  deriving Repr, DecidableEq

/-- Parsed body of a select_seat / deselect_seat response, or a
transport-level failure (fetch rejection / JSON parse error), which the
code handles in its catch block. `err` carries `data.error` for select
and `data.message` for deselect. -/
inductive PostResponse where
  | body (success : Bool) (err : Option String)
  | transportError
  deriving Repr, DecidableEq

/-- Parsed body of a GET seat_status response, or a failure (non-2xx is
thrown and caught, so it lands with transport errors). -/
inductive StatusResponse where
  | body (booked_seats : List Nat) (available_seats : List Nat)
      (temporary_selections : List (Nat × HoldInfo))
  | failure
  deriving Repr, DecidableEq

/-- `RealTimeSeatManager.fetchSeatStatus` (part_000 lines 181-211): always
issues the GET; on success replaces the three snapshot fields wholesale
(selectedSeats untouched); on any error logs and leaves state unchanged. -/
def fetchSeatStatus (st : RTState) (resp : StatusResponse) : RTState × List Request :=
  match resp with
  | .body booked avail temps =>
      ({ st with bookedSeats := booked, availableSeats := avail, tempSelections := temps },
       [.seatStatusReq st.scheduleId])
  | .failure => (st, [.seatStatusReq st.scheduleId])

/-- Result of one RealTimeSeatManager operation: successor state, the
requests it issued in order, and the notifications it showed. -/
structure RTResult where
  state : RTState
  requests : List Request
  notices : List Notification
  deriving Repr, DecidableEq

/-- `RealTimeSeatManager.selectSeat` (part_000 lines 115-143): always
issues the select_seat POST; on `data.success` adds the seat to
`selectedSeats` and refreshes the status snapshot; on `success: false`
or a transport error it changes nothing and surfaces an error
notification. There is no seat-count bound anywhere in this method. -/
def selectSeat (st : RTState) (seatNumber : Nat) (resp : PostResponse)
    (statusResp : StatusResponse) : RTResult :=
  let req := Request.selectSeatReq st.scheduleId seatNumber
  match resp with
  | .body true _ =>
      let st1 := { st with selectedSeats := setAdd st.selectedSeats seatNumber }
      let (st2, reqs2) := fetchSeatStatus st1 statusResp
      { state := st2, requests := req :: reqs2,
        notices := [⟨"Seat " ++ toString seatNumber ++ " temporarily selected", "success"⟩] }
  | .body false e =>
      { state := st, requests := [req],
        notices := [⟨jsOrElse e "Failed to select seat", "error"⟩] }
  | .transportError =>
      { state := st, requests := [req],
        notices := [⟨"Failed to select seat. Please try again.", "error"⟩] }

/-- `RealTimeSeatManager.deselectSeat` (part_000 lines 148-176): always
issues the deselect_seat POST; removes the seat from `selectedSeats` only
on `data.success` (then refreshes the snapshot); on `success: false` or a
transport error the selection is left untouched. -/
def deselectSeat (st : RTState) (seatNumber : Nat) (resp : PostResponse)
    (statusResp : StatusResponse) : RTResult :=
  let req := Request.deselectSeatReq st.scheduleId seatNumber
  match resp with
  | .body true _ =>
      let st1 := { st with selectedSeats := setDelete st.selectedSeats seatNumber }
      let (st2, reqs2) := fetchSeatStatus st1 statusResp
      { state := st2, requests := req :: reqs2,
        notices := [⟨"Seat " ++ toString seatNumber ++ " deselected", "success"⟩] }
  | .body false m =>
      { state := st, requests := [req],
        notices := [⟨jsOrElse m "Failed to deselect seat", "error"⟩] }
  | .transportError =>
      { state := st, requests := [req],
        notices := [⟨"Failed to deselect seat. Please try again.", "error"⟩] }

/-- The DOM state `updateSeatDisplay` leaves on one seat element: the CSS
classes present after the remove/add sequence, the dataset fields, and the
tooltip. `dsUserId`/`dsUsername` are `none` when the dataset key was
deleted. -/
structure RenderedSeat where
  classes : List String
  status : String
  dsUserId : Option Nat
  dsUsername : Option String
  title : String
  deriving Repr, DecidableEq

/-- Per-seat body of `RealTimeSeatManager.updateSeatDisplay` (part_000
lines 216-265): booked membership is tested first, then the temporary
map, else available — precedence booked > temporary > available. For a
temporary hold by the current user the code removes bg-yellow-400 again
and adds bg-green-500 and cursor-pointer (cursor-not-allowed, added just
before, is never removed on that path, so both cursor classes remain).
`now` is the clock read inside getTimeUntilExpiry. -/
def renderSeat (st : RTState) (now : Int) (seatNumber : Nat) : RenderedSeat :=
  if st.bookedSeats.contains seatNumber then
    { classes := ["bg-red-400", "text-white", "cursor-not-allowed"],
      status := "booked", dsUserId := none, dsUsername := none, title := "Booked" }
  else
    match mapGet st.tempSelections seatNumber with
    | some sel =>
        if sel.user_id = st.userId then
          { classes := ["text-white", "cursor-not-allowed", "bg-green-500", "cursor-pointer"],
            status := "temporary", dsUserId := some sel.user_id,
            dsUsername := some sel.username,
            title := "Your selection (expires in "
              ++ getTimeUntilExpiry sel.expires_at now ++ ")" }
        else
          { classes := ["bg-yellow-400", "text-white", "cursor-not-allowed"],
            status := "temporary", dsUserId := some sel.user_id,
            dsUsername := some sel.username,
            title := "Temporarily selected by " ++ sel.username
              ++ " (expires in " ++ getTimeUntilExpiry sel.expires_at now ++ ")" }
    | none =>
        { classes := ["bg-gray-200", "hover:bg-gray-300", "cursor-pointer"],
          status := "available", dsUserId := none, dsUsername := none,
          title := "Available" }

/-- The action a seat click resolves to in `handleSeatClick`. -/
inductive ClickAction where
  | ignored
  | deselects (seatNumber : Nat)
  | selects (seatNumber : Nat)
  deriving Repr, DecidableEq

/-- `RealTimeSeatManager.handleSeatClick` (part_000 lines 94-110), reading
the element's rendered dataset: booked returns immediately; a temporary
seat whose dataset userId loosely equals this.userId is deselected; an
available seat is selected; anything else (a hold by another user) falls
through both branches and does nothing. -/
def handleSeatClick (userId seatNumber : Nat) (el : RenderedSeat) : ClickAction :=
  if el.status = "booked" then .ignored
  else if el.status = "temporary" ∧ el.dsUserId = some userId then .deselects seatNumber
  else if el.status = "available" then .selects seatNumber
  else .ignored

/-- Body of the seat_availability response, as cached by
`checkSeatAvailability`. -/
structure AvailabilityData where
  available_count : Nat
  total_seats : Nat
  booked_seats : List Nat
  deriving Repr, DecidableEq

/-- One `availabilityCache` entry: `{data, timestamp}`. -/
structure CacheEntry where
  data : AvailabilityData
  timestamp : Int
  deriving Repr, DecidableEq

/-- Mutable state of `SeatBookingManager` (seat-booking.js lines 6-12):
the single-flight flag and the availability cache keyed by schedule id. -/
structure SeatBookingManager where
  bookingInProgress : Bool
  availabilityCache : List (Nat × CacheEntry)
  deriving Repr, DecidableEq

/-- Payload assembled by `handleFormSubmission` for the book_seats call. -/
structure BookingData where
  schedule_id : Nat
  passenger_name : String
  passenger_email : String
  passenger_phone : String
  seat_numbers : List Nat
  deriving Repr, DecidableEq

/-- 2xx JSON body of a book_seats response: `{success, booking_id, error?}`. -/
structure BookBody where
  success : Bool
  booking_id : Nat
  err : Option String
  deriving Repr, DecidableEq

/-- How the book_seats fetch resolves: a 2xx body; a non-2xx response
whose JSON error field the code rethrows (`errorData.error || 'Booking
failed'`); or a fetch/parse rejection whose message is rethrown as-is. -/
inductive BookResponse where
  | body (b : BookBody)
  | httpError (errorField : Option String)
  | transportError (msg : String)
  deriving Repr, DecidableEq

/-- The exact message of the guard throw in `bookSeats`
(seat-booking.js line 138). -/
def busyMessage : String := "Booking already in progress. Please wait."

/-- Synchronous prefix of `SeatBookingManager.bookSeats` (seat-booking.js
lines 136-152), up to and including issuing the fetch: if
`bookingInProgress` is set it throws the busy error at once — state
untouched, no request; otherwise it sets the flag and issues the POST.
Splitting here makes the interleaving of two overlapping calls explicit:
everything before the fetch runs synchronously in one JS turn. -/
def bookSeatsStart (m : SeatBookingManager) (d : BookingData) :
    SeatBookingManager × List Request × Option String :=
  if m.bookingInProgress then (m, [], some busyMessage)
  else ({ m with bookingInProgress := true },
        [.bookSeatsReq d.schedule_id d.passenger_name d.passenger_email
          d.passenger_phone d.seat_numbers],
        none)

/-- Remainder of `bookSeats` (seat-booking.js lines 154-175) once the
fetch resolves: a 2xx body clears this schedule's cache entry and is
returned; a non-2xx or transport error is rethrown; the `finally` block
clears `bookingInProgress` on every one of these paths. -/
def bookSeatsFinish (m : SeatBookingManager) (d : BookingData) (resp : BookResponse) :
    SeatBookingManager × Except String BookBody :=
  match resp with
  | .body b =>
      ({ m with
          bookingInProgress := false,
          availabilityCache := m.availabilityCache.filter (fun p => p.1 ≠ d.schedule_id) },
       .ok b)
  | .httpError errorField =>
      ({ m with bookingInProgress := false }, .error (jsOrElse errorField "Booking failed"))
  | .transportError msg =>
      ({ m with bookingInProgress := false }, .error msg)

/-- A complete `bookSeats` call: guard, fetch, response handling. -/
def bookSeats (m : SeatBookingManager) (d : BookingData) (resp : BookResponse) :
    SeatBookingManager × List Request × Except String BookBody :=
  match bookSeatsStart m d with
  | (m1, reqs, some e) => (m1, reqs, .error e)
  | (m1, reqs, none) =>
      let (m2, r) := bookSeatsFinish m1 d resp
      (m2, reqs, r)

/-- Body of a check_seats response: `{all_available, unavailable_seats}`. -/
structure CheckSeatsBody where
  all_available : Bool
  unavailable_seats : List Nat
  deriving Repr, DecidableEq

/-- How the check_seats fetch resolves; any error (non-2xx throw or fetch
rejection) is caught inside `checkSpecificSeats`, which returns null. -/
inductive CheckResponse where
  | body (b : CheckSeatsBody)
  | failure
  deriving Repr, DecidableEq

/-- `SeatBookingManager.checkSpecificSeats` (seat-booking.js lines
102-131): issues the POST and returns the parsed body, or `none` (null)
after catching any error. -/
def checkSpecificSeats (scheduleId : String) (seatNumbers : List Nat)
    (resp : CheckResponse) : List Request × Option CheckSeatsBody :=
  ([.checkSeatsReq scheduleId seatNumbers],
   match resp with
   | .body b => some b
   | .failure => none)

/-- Mutable state of `SeatSelectionHandler` (seat-booking.js lines
235-242): the bound, the local selection set, its embedded manager, and
the schedule_id input found inside the container (used by
refreshSeatDisplay; `none` when absent). -/
structure SeatSelectionHandler where
  maxSeats : Nat
  selectedSeats : List Nat
  containerScheduleId : Option String
  manager : SeatBookingManager
  deriving Repr, DecidableEq

/-- What one `toggleSeat` call did. -/
inductive ToggleOutcome where
  | deselected
  | rejectedOverLimit (alertMsg : String)
  | selected
  deriving Repr, DecidableEq

/-- `SeatSelectionHandler.toggleSeat` (seat-booking.js lines 267-287): a
selected seat is removed; an unselected seat is rejected with an alert
when `size >= maxSeats`, else added. Every branch is purely local — the
method contains no fetch, so the request trace is empty on each path. -/
def toggleSeat (h : SeatSelectionHandler) (seatNumber : Nat) :
    SeatSelectionHandler × ToggleOutcome × List Request :=
  if h.selectedSeats.contains seatNumber then
    ({ h with selectedSeats := setDelete h.selectedSeats seatNumber }, .deselected, [])
  else if h.selectedSeats.length ≥ h.maxSeats then
    (h, .rejectedOverLimit ("You can only select up to " ++ toString h.maxSeats ++ " seats."),
     [])
  else
    ({ h with selectedSeats := setAdd h.selectedSeats seatNumber }, .selected, [])

/-- `SeatSelectionHandler.refreshSeatDisplay` (seat-booking.js lines
347-355): reads the container's schedule_id input and, when truthy,
issues one checkSeatAvailability GET (whose callback re-renders). -/
def refreshSeatDisplay (h : SeatSelectionHandler) : List Request :=
  if truthy h.containerScheduleId then
    [.seatAvailabilityReq (h.containerScheduleId.getD "")]
  else []

/-- The four form inputs `handleFormSubmission` reads; `none` models a
missing element (optional chaining yields undefined). -/
structure FormFields where
  schedule_id : Option String
  name : Option String
  email : Option String
  phone : Option String
  deriving Repr, DecidableEq

/-- Observable outcome of one `handleFormSubmission` run: the handler
state afterwards, every request issued in order, every alert shown, the
`window.location.href` assignment if any, and whether
`refreshSeatDisplay` was invoked. -/
structure SubmitOutcome where
  handler : SeatSelectionHandler
  requests : List Request
  alerts : List String
  redirect : Option String
  refreshed : Bool
  deriving Repr, DecidableEq

/-- Message of the TypeError raised when `checkSpecificSeats` returned
null (it caught a failed fetch) and the code reads
`seatCheck.all_available` on it; the exact wording is engine-specific,
only the fact that the catch branch runs matters. -/
def nullCheckErrorMessage : String :=
  "Cannot read properties of null (reading all_available)"

/-- `SeatSelectionHandler.handleFormSubmission` (seat-booking.js lines
297-345), with the two server interactions passed in as parameters:
validate the four fields (JS falsiness), require a non-empty selection,
re-check exactly the selected seats, and only if the check body arrives
with `all_available` proceed to `bookSeats`; an unavailable result alerts
with the returned unavailable_seats and refreshes; every thrown error
(including the busy guard) is caught, alerted as "Booking failed: …" and
refreshes; a `success` body assigns the payment redirect (the selection
set is not modified on any path). -/
def handleFormSubmission (h : SeatSelectionHandler) (form : FormFields)
    (checkResp : CheckResponse) (bookResp : BookResponse) : SubmitOutcome :=
  if ¬ (truthy form.schedule_id ∧ truthy form.name ∧ truthy form.email
        ∧ truthy form.phone) then
    { handler := h, requests := [], alerts := ["Please fill in all required fields."],
      redirect := none, refreshed := false }
  else if h.selectedSeats.length = 0 then
    { handler := h, requests := [], alerts := ["Please select at least one seat."],
      redirect := none, refreshed := false }
  else
    let sid := form.schedule_id.getD ""
    let (checkReqs, seatCheck) := checkSpecificSeats sid h.selectedSeats checkResp
    match seatCheck with
    | none =>
        { handler := h, requests := checkReqs ++ refreshSeatDisplay h,
          alerts := ["Booking failed: " ++ nullCheckErrorMessage],
          redirect := none, refreshed := true }
    | some chk =>
        if ¬ chk.all_available then
          { handler := h, requests := checkReqs ++ refreshSeatDisplay h,
            alerts := ["Seats " ++ jsJoin chk.unavailable_seats ", "
              ++ " are no longer available. Please select different seats."],
            redirect := none, refreshed := true }
        else
          let d : BookingData :=
            { schedule_id := jsParseInt sid,
              passenger_name := form.name.getD "",
              passenger_email := form.email.getD "",
              passenger_phone := form.phone.getD "",
              seat_numbers := h.selectedSeats }
          match bookSeats h.manager d bookResp with
          | (m2, bookReqs, .error msg) =>
              let h2 := { h with manager := m2 }
              { handler := h2, requests := checkReqs ++ bookReqs ++ refreshSeatDisplay h2,
                alerts := ["Booking failed: " ++ msg],
                redirect := none, refreshed := true }
          | (m2, bookReqs, .ok b) =>
              { handler := { h with manager := m2 },
                requests := checkReqs ++ bookReqs,
                alerts := [],
                redirect :=
                  if b.success then some ("/payment/" ++ toString b.booking_id ++ "/")
                  else none,
                refreshed := false }

/-! ## Theorems for the claims -/

/-- Claim C9 (confirmed): the countdown for an expires_at in the past or
equal to now renders as "expired", and for an expires_at exactly 90
seconds in the future it renders as "2 mins" (minutes rounded up). -/
theorem countdown_expired_and_ninety_seconds :
    (∀ expiresAt now : Int, expiresAt ≤ now → getTimeUntilExpiry expiresAt now = "expired")
    ∧ (∀ now : Int, getTimeUntilExpiry (now + 90000) now = "2 mins") := by
  constructor
  · intro e n hle
    unfold getTimeUntilExpiry
    rw [if_pos (by omega)]
  · intro n
    unfold getTimeUntilExpiry
    norm_num
    rw [show ⌈(3 : ℚ) / 2⌉ = 2 by rw [Int.ceil_eq_iff]; norm_num]
    rfl

/-- Witness for C9 at concrete clock values. -/
theorem countdown_expired_and_ninety_seconds_witness :
    getTimeUntilExpiry 0 5 = "expired" ∧ getTimeUntilExpiry (0 + 90000) 0 = "2 mins" :=
  ⟨countdown_expired_and_ninety_seconds.1 0 5 (by decide),
   countdown_expired_and_ninety_seconds.2 0⟩

/-- Counterexample to claim C8 as stated: the code does not floor-divide
the remaining time into minutes. At a difference of 90000 ms the code
(`Math.ceil`) renders "2 mins" while the claimed floor division would
render "1 min". -/
theorem countdown_not_floor_counterexample :
    getTimeUntilExpiry 90000 0 = "2 mins" ∧ floorCountdownSpec 90000 0 = "1 min" := by
  constructor
  · unfold getTimeUntilExpiry
    norm_num
    rw [show ⌈(3 : ℚ) / 2⌉ = 2 by rw [Int.ceil_eq_iff]; norm_num]
    rfl
  · unfold floorCountdownSpec
    norm_num
    rfl

/-- Claim C8 (amended: ceiling instead of floor division): the countdown
is computed from expiresAt − now at render time; it is "expired" when the
difference is ≤ 0, and otherwise shows the unique whole-minute count m
with (m−1)·60000 < difference ≤ m·60000, i.e. the difference divided into
minutes and rounded up. -/
theorem countdown_ceiling_minutes (expiresAt now : Int) :
    (expiresAt - now ≤ 0 → getTimeUntilExpiry expiresAt now = "expired")
    ∧ (0 < expiresAt - now →
        ∃ m : Int,
          getTimeUntilExpiry expiresAt now
            = toString m ++ " min" ++ (if m ≠ 1 then "s" else "")
          ∧ (m - 1) * 60000 < expiresAt - now
          ∧ expiresAt - now ≤ m * 60000
          ∧ 1 ≤ m) := by
  constructor
  · intro hle
    unfold getTimeUntilExpiry
    rw [if_pos hle]
  · intro hpos
    refine ⟨⌈((expiresAt - now : Int) : ℚ) / (1000 * 60)⌉, ?_, ?_, ?_, ?_⟩
    · unfold getTimeUntilExpiry
      rw [if_neg (by omega)]
    · have h1 : (⌈((expiresAt - now : Int) : ℚ) / (1000 * 60)⌉ : ℚ)
          < ((expiresAt - now : Int) : ℚ) / (1000 * 60) + 1 := Int.ceil_lt_add_one _
      have h2 : ((⌈((expiresAt - now : Int) : ℚ) / (1000 * 60)⌉ - 1 : Int) : ℚ) * 60000
          < ((expiresAt - now : Int) : ℚ) := by
        push_cast at h1 ⊢
        nlinarith
      exact_mod_cast h2
    · have h1 : ((expiresAt - now : Int) : ℚ) / (1000 * 60)
          ≤ (⌈((expiresAt - now : Int) : ℚ) / (1000 * 60)⌉ : ℚ) := Int.le_ceil _
      have h2 : ((expiresAt - now : Int) : ℚ)
          ≤ ((⌈((expiresAt - now : Int) : ℚ) / (1000 * 60)⌉ : Int) : ℚ) * 60000 := by
        nlinarith
      exact_mod_cast h2
    · have hq : (0 : ℚ) < ((expiresAt - now : Int) : ℚ) / (1000 * 60) := by
        have : (0 : ℚ) < ((expiresAt - now : Int) : ℚ) := by exact_mod_cast hpos
        positivity
      exact Int.ceil_pos.mpr hq

/-- Witness for C8 (amended) at a 90-second difference. -/
theorem countdown_ceiling_minutes_witness :
    ∃ m : Int,
      getTimeUntilExpiry 90000 0 = toString m ++ " min" ++ (if m ≠ 1 then "s" else "")
      ∧ (m - 1) * 60000 < 90000 - 0
      ∧ (90000 : Int) - 0 ≤ m * 60000
      ∧ 1 ≤ m :=
  (countdown_ceiling_minutes 90000 0).2 (by decide)

/-- Claim C7 (confirmed): a seat listed both in the booked set and in the
temporary-selections map renders as booked (precedence booked >
temporary-hold > available): red non-interactive styling with
cursor-not-allowed and no cursor-pointer, dataset status "booked", and a
click on such an element resolves to no action for every user. -/
theorem booked_beats_temporary (st : RTState) (now : Int) (seat : Nat)
    (hb : st.bookedSeats.contains seat = true)
    (_ht : (mapGet st.tempSelections seat).isSome = true) :
    renderSeat st now seat
      = { classes := ["bg-red-400", "text-white", "cursor-not-allowed"],
          status := "booked", dsUserId := none, dsUsername := none, title := "Booked" }
    ∧ "cursor-not-allowed" ∈ (renderSeat st now seat).classes
    ∧ "cursor-pointer" ∉ (renderSeat st now seat).classes
    ∧ ∀ userId : Nat, handleSeatClick userId seat (renderSeat st now seat) = .ignored := by
  have hr : renderSeat st now seat
      = { classes := ["bg-red-400", "text-white", "cursor-not-allowed"],
          status := "booked", dsUserId := none, dsUsername := none, title := "Booked" } := by
    unfold renderSeat
    rw [if_pos hb]
  refine ⟨hr, ?_, ?_, ?_⟩
  · rw [hr]; decide
  · rw [hr]; decide
  · intro userId
    rw [hr]
    rfl

/-- Witness for C7: a seat booked and simultaneously held in a snapshot. -/
theorem booked_beats_temporary_witness :
    renderSeat
        { scheduleId := 1, userId := 7, selectedSeats := [],
          tempSelections := [(5, ⟨7, "A", 120000⟩)],
          bookedSeats := [5], availableSeats := [] } 0 5
      = { classes := ["bg-red-400", "text-white", "cursor-not-allowed"],
          status := "booked", dsUserId := none, dsUsername := none, title := "Booked" } :=
  (booked_beats_temporary
    { scheduleId := 1, userId := 7, selectedSeats := [],
      tempSelections := [(5, ⟨7, "A", 120000⟩)],
      bookedSeats := [5], availableSeats := [] } 0 5 (by decide) (by decide)).1

lemma mem_setAdd_self (s : List Nat) (x : Nat) : x ∈ setAdd s x := by
  unfold setAdd
  split <;> simp_all

/-- Claim C4 (confirmed): a select on a seat not in the local selection
adds it only on a server-confirmed success. On `success: false` or on a
transport error the whole state is unchanged and the seat stays absent;
on success the seat is a member afterwards. -/
theorem selectSeat_only_on_confirmation (st : RTState) (seat : Nat)
    (hnot : st.selectedSeats.contains seat = false) :
    (∀ (e : Option String) (sr : StatusResponse),
        (selectSeat st seat (.body false e) sr).state = st
        ∧ (selectSeat st seat (.body false e) sr).state.selectedSeats.contains seat = false)
    ∧ (∀ sr : StatusResponse,
        (selectSeat st seat .transportError sr).state = st
        ∧ (selectSeat st seat .transportError sr).state.selectedSeats.contains seat = false)
    ∧ (∀ (e : Option String) (sr : StatusResponse),
        (selectSeat st seat (.body true e) sr).state.selectedSeats.contains seat = true) := by
  refine ⟨fun e sr => ⟨rfl, ?_⟩, fun sr => ⟨rfl, ?_⟩, fun e sr => ?_⟩
  · simpa [selectSeat] using hnot
  · simpa [selectSeat] using hnot
  · cases sr <;> simp [selectSeat, fetchSeatStatus, mem_setAdd_self]

/-- Witness for C4 on a concrete state and seat. -/
theorem selectSeat_only_on_confirmation_witness :
    ((selectSeat
        { scheduleId := 1, userId := 7, selectedSeats := [2], tempSelections := [],
          bookedSeats := [], availableSeats := [3] } 3 (.body false (some "taken")) .failure).state
      = { scheduleId := 1, userId := 7, selectedSeats := [2], tempSelections := [],
          bookedSeats := [], availableSeats := [3] })
    ∧ ((selectSeat
        { scheduleId := 1, userId := 7, selectedSeats := [2], tempSelections := [],
          bookedSeats := [], availableSeats := [3] } 3
          (.body true none) .failure).state.selectedSeats.contains 3 = true) :=
  ⟨((selectSeat_only_on_confirmation
      { scheduleId := 1, userId := 7, selectedSeats := [2], tempSelections := [],
        bookedSeats := [], availableSeats := [3] } 3 (by decide)).1 (some "taken") .failure).1,
   (selectSeat_only_on_confirmation
      { scheduleId := 1, userId := 7, selectedSeats := [2], tempSelections := [],
        bookedSeats := [], availableSeats := [3] } 3 (by decide)).2.2 none .failure⟩

/-- Counterexample to claim C5 as stated: not every deselect operation
waits for server confirmation. `SeatSelectionHandler.toggleSeat` (also
cited by the claim) deselects a selected seat purely locally: seat 7 is
removed from the selection while the request trace stays empty — no
release-hold request exists for the server to confirm. -/
theorem toggleSeat_deselects_without_server_counterexample :
    toggleSeat
        { maxSeats := 4, selectedSeats := [7], containerScheduleId := some "1",
          manager := { bookingInProgress := false, availabilityCache := [] } } 7
      = ({ maxSeats := 4, selectedSeats := [], containerScheduleId := some "1",
           manager := { bookingInProgress := false, availabilityCache := [] } },
         .deselected, []) := by
  decide

/-- Claim C5 (amended: the server-confirmed removal holds for
`RealTimeSeatManager.deselectSeat`, while `SeatSelectionHandler.toggleSeat`
deselects locally without issuing any request): deselectSeat removes the
seat from the local selection exactly on a confirmed release — on
`success: false` or a transport error the whole state is unchanged, and
on confirmation the seat is deleted from the selection. -/
theorem deselectSeat_only_on_confirmation :
    (∀ (st : RTState) (seat : Nat) (e : Option String) (sr : StatusResponse),
        (deselectSeat st seat (.body false e) sr).state = st)
    ∧ (∀ (st : RTState) (seat : Nat) (sr : StatusResponse),
        (deselectSeat st seat .transportError sr).state = st)
    ∧ (∀ (st : RTState) (seat : Nat) (e : Option String) (sr : StatusResponse),
        (deselectSeat st seat (.body true e) sr).state.selectedSeats
          = setDelete st.selectedSeats seat) := by
  refine ⟨fun st seat e sr => rfl, fun st seat sr => rfl, fun st seat e sr => ?_⟩
  cases sr <;> simp [deselectSeat, fetchSeatStatus]

/-- Fold a click sequence through `toggleSeat`, keeping only the state
(each click is one toggleSeat call on the current handler). -/
def toggleMany (h : SeatSelectionHandler) (seats : List Nat) : SeatSelectionHandler :=
  seats.foldl (fun acc s => (toggleSeat acc s).1) h

lemma toggleSeat_maxSeats (h : SeatSelectionHandler) (s : Nat) :
    (toggleSeat h s).1.maxSeats = h.maxSeats := by
  unfold toggleSeat
  split
  · rfl
  · split <;> rfl

lemma toggleSeat_length_le (h : SeatSelectionHandler) (s : Nat)
    (hle : h.selectedSeats.length ≤ h.maxSeats) :
    (toggleSeat h s).1.selectedSeats.length ≤ h.maxSeats := by
  unfold toggleSeat
  split
  · next hmem =>
      simp only [setDelete]
      calc (h.selectedSeats.filter (fun y => y ≠ s)).length
          ≤ h.selectedSeats.length := List.length_filter_le _ _
        _ ≤ h.maxSeats := hle
  · split
    · next hge => exact hle
    · next hmem hlt =>
        have hlen : h.selectedSeats.length < h.maxSeats := by omega
        simp only [setAdd]
        split
        · exact hle
        · simp only [List.length_append, List.length_cons, List.length_nil]
          omega

lemma toggleMany_invariant (seats : List Nat) (h : SeatSelectionHandler)
    (hle : h.selectedSeats.length ≤ h.maxSeats) :
    (toggleMany h seats).selectedSeats.length ≤ h.maxSeats
    ∧ (toggleMany h seats).maxSeats = h.maxSeats := by
  induction seats generalizing h with
  | nil => exact ⟨hle, rfl⟩
  | cons s rest ih =>
      have hstep := toggleSeat_length_le h s hle
      have hmax := toggleSeat_maxSeats h s
      have := ih (toggleSeat h s).1 (by rw [hmax]; exact hstep)
      simp only [toggleMany, List.foldl_cons] at this ⊢
      exact ⟨by rw [← hmax]; exact this.1, by rw [← hmax]; exact this.2⟩

/-- Claim C1 (amended: the bound and the no-network-call rejection hold
for `SeatSelectionHandler.toggleSeat`, whose selects never issue a
request at all; `RealTimeSeatManager.selectSeat` enforces no such bound):
any click sequence keeps the toggleSeat selection at most maxSeats
seats, and a select attempted while the selection holds maxSeats seats
is rejected with the over-limit alert, leaves the handler unchanged and
issues no network request. -/
theorem selection_bounded_by_maxSeats :
    (∀ (h : SeatSelectionHandler) (seats : List Nat),
        h.selectedSeats.length ≤ h.maxSeats →
        (toggleMany h seats).selectedSeats.length ≤ h.maxSeats)
    ∧ (∀ (h : SeatSelectionHandler) (s : Nat),
        h.selectedSeats.contains s = false →
        h.selectedSeats.length = h.maxSeats →
        toggleSeat h s
          = (h, .rejectedOverLimit
                ("You can only select up to " ++ toString h.maxSeats ++ " seats."), [])) := by
  constructor
  · intro h seats hle
    exact (toggleMany_invariant seats h hle).1
  · intro h s hmem hfull
    unfold toggleSeat
    rw [if_neg (by simpa using hmem), if_pos (by omega)]

/-- Witness for C1 (amended): a handler already holding its four allowed
seats; a long click sequence stays within the bound and a fifth select is
rejected without any request. -/
theorem selection_bounded_by_maxSeats_witness :
    (toggleMany
        { maxSeats := 4, selectedSeats := [1, 2, 3, 4], containerScheduleId := some "1",
          manager := { bookingInProgress := false, availabilityCache := [] } }
        [5, 6, 7, 1, 8]).selectedSeats.length ≤ 4
    ∧ toggleSeat
        { maxSeats := 4, selectedSeats := [1, 2, 3, 4], containerScheduleId := some "1",
          manager := { bookingInProgress := false, availabilityCache := [] } } 5
      = ({ maxSeats := 4, selectedSeats := [1, 2, 3, 4], containerScheduleId := some "1",
           manager := { bookingInProgress := false, availabilityCache := [] } },
         .rejectedOverLimit "You can only select up to 4 seats.", []) :=
  ⟨selection_bounded_by_maxSeats.1
      { maxSeats := 4, selectedSeats := [1, 2, 3, 4], containerScheduleId := some "1",
        manager := { bookingInProgress := false, availabilityCache := [] } }
      [5, 6, 7, 1, 8] (by decide),
   selection_bounded_by_maxSeats.2
      { maxSeats := 4, selectedSeats := [1, 2, 3, 4], containerScheduleId := some "1",
        manager := { bookingInProgress := false, availabilityCache := [] } }
      5 (by decide) (by decide)⟩

/-- One server-confirmed `selectSeat` call (the status refresh that
follows a confirmation is taken as failed so that only the selection set
moves; the selection update is identical either way). -/
def confirmedSelect (st : RTState) (seat : Nat) : RTState :=
  (selectSeat st seat (.body true none) .failure).state

/-- An empty RealTimeSeatManager selection on schedule 1 for user 7. -/
def rtInit : RTState :=
  { scheduleId := 1, userId := 7, selectedSeats := [], tempSelections := [],
    bookedSeats := [], availableSeats := [1, 2, 3, 4, 5] }

/-- rtInit after four server-confirmed selects: the selection holds
4 seats — the default maxSeats of the booking form handler. -/
def rtAtFour : RTState :=
  confirmedSelect (confirmedSelect (confirmedSelect (confirmedSelect rtInit 1) 2) 3) 4

/-- Counterexample to claim C1 as stated: in `RealTimeSeatManager`
(src/unnamed/part_000), whose selectSeat the claim also cites, a sequence
of five server-confirmed selects grows the local selection to 5 seats —
past the default maxSeats of 4 — and the fifth select, attempted while
the selection already holds 4 seats, still issues its select_seat
network request instead of being rejected. -/
theorem selectSeat_unbounded_counterexample :
    rtAtFour.selectedSeats.length = 4
    ∧ (selectSeat rtAtFour 5 (.body true none) .failure).state.selectedSeats.length = 5
    ∧ (selectSeat rtAtFour 5 (.body true none) .failure).requests
      = [.selectSeatReq 1 5, .seatStatusReq 1] := by
  decide

/-- Recognizes a booking-endpoint request in a trace. -/
def isBookRequest : Request → Bool
  | .bookSeatsReq _ _ _ _ _ => true
  | _ => false

/-- A manager with no booking in flight and an empty cache. -/
def emptyManager : SeatBookingManager :=
  { bookingInProgress := false, availabilityCache := [] }

/-- A concrete booking payload. -/
def sampleBooking : BookingData :=
  { schedule_id := 3, passenger_name := "Ann", passenger_email := "ann@example.com",
    passenger_phone := "555", seat_numbers := [2, 9] }

/-- Claim C3 (confirmed): the guard runs synchronously before the fetch,
so while a first bookSeats call is pending a second call is rejected
immediately with the busy error ("Booking already in progress. Please
wait."), no state change and no request — across the two overlapping
calls exactly the first call's booking request is issued. -/
theorem single_flight_booking (m : SeatBookingManager) (d1 d2 : BookingData)
    (hfree : m.bookingInProgress = false) :
    (bookSeatsStart m d1).2.2 = none
    ∧ (bookSeatsStart m d1).2.1
      = [Request.bookSeatsReq d1.schedule_id d1.passenger_name d1.passenger_email
          d1.passenger_phone d1.seat_numbers]
    ∧ (bookSeatsStart m d1).1.bookingInProgress = true
    ∧ bookSeatsStart (bookSeatsStart m d1).1 d2
      = ((bookSeatsStart m d1).1, [], some busyMessage) := by
  simp [bookSeatsStart, hfree]

/-- Witness for C3: two overlapping submits on a fresh manager. -/
theorem single_flight_booking_witness :
    (bookSeatsStart emptyManager sampleBooking).2.2 = none
    ∧ (bookSeatsStart emptyManager sampleBooking).2.1
      = [Request.bookSeatsReq sampleBooking.schedule_id sampleBooking.passenger_name
          sampleBooking.passenger_email sampleBooking.passenger_phone
          sampleBooking.seat_numbers]
    ∧ (bookSeatsStart emptyManager sampleBooking).1.bookingInProgress = true
    ∧ bookSeatsStart (bookSeatsStart emptyManager sampleBooking).1 sampleBooking
      = ((bookSeatsStart emptyManager sampleBooking).1, [], some busyMessage) :=
  single_flight_booking emptyManager sampleBooking sampleBooking rfl

/-- Claim C10 (confirmed): every completed (non-busy-rejected) bookSeats
call leaves bookingInProgress false — the finally block runs on the
success path, on a non-2xx response and on a transport error — so a
later call made after completion gets past the guard and issues its
request; a busy rejection itself returns the manager exactly as found. -/
theorem bookingInProgress_always_reset (m : SeatBookingManager) (d : BookingData)
    (resp : BookResponse) :
    (m.bookingInProgress = false →
      (bookSeats m d resp).1.bookingInProgress = false
      ∧ ∀ (d2 : BookingData) (resp2 : BookResponse),
          (bookSeats (bookSeats m d resp).1 d2 resp2).2.1
            = [Request.bookSeatsReq d2.schedule_id d2.passenger_name d2.passenger_email
                d2.passenger_phone d2.seat_numbers])
    ∧ (m.bookingInProgress = true →
        bookSeats m d resp = (m, [], Except.error busyMessage)) := by
  constructor
  · intro hfree
    have hflag : (bookSeats m d resp).1.bookingInProgress = false := by
      cases resp <;> simp [bookSeats, bookSeatsStart, bookSeatsFinish, hfree]
    have key : ∀ (mm : SeatBookingManager), mm.bookingInProgress = false →
        ∀ (d2 : BookingData) (resp2 : BookResponse),
          (bookSeats mm d2 resp2).2.1
            = [Request.bookSeatsReq d2.schedule_id d2.passenger_name d2.passenger_email
                d2.passenger_phone d2.seat_numbers] := by
      intro mm hmm d2 resp2
      cases resp2 <;> simp [bookSeats, bookSeatsStart, bookSeatsFinish, hmm]
    exact ⟨hflag, fun d2 resp2 => key _ hflag d2 resp2⟩
  · intro hbusy
    simp [bookSeats, bookSeatsStart, hbusy]

/-- Witness for C10: a booking that fails with a non-2xx response still
resets the flag, and a retry issues its request. -/
theorem bookingInProgress_always_reset_witness :
    (bookSeats emptyManager sampleBooking (.httpError (some "seat taken"))).1.bookingInProgress
      = false
    ∧ (bookSeats (bookSeats emptyManager sampleBooking (.httpError (some "seat taken"))).1
        sampleBooking (.body ⟨true, 42, none⟩)).2.1
      = [Request.bookSeatsReq sampleBooking.schedule_id sampleBooking.passenger_name
          sampleBooking.passenger_email sampleBooking.passenger_phone
          sampleBooking.seat_numbers] :=
  ⟨((bookingInProgress_always_reset emptyManager sampleBooking
      (.httpError (some "seat taken"))).1 rfl).1,
   ((bookingInProgress_always_reset emptyManager sampleBooking
      (.httpError (some "seat taken"))).1 rfl).2 sampleBooking (.body ⟨true, 42, none⟩)⟩

/-- A handler mid-session: two seats selected, schedule input present. -/
def sampleHandler : SeatSelectionHandler :=
  { maxSeats := 4, selectedSeats := [2, 9], containerScheduleId := some "3",
    manager := emptyManager }

/-- A fully filled booking form. -/
def sampleForm : FormFields :=
  { schedule_id := some "3", name := some "Ann", email := some "ann@example.com",
    phone := some "555" }

/-- Claim C2 (confirmed): when the pre-booking re-check reports the
selection not all available, submit aborts — the trace is the check_seats
request followed only by the display-refresh request (no booking request
anywhere), the single alert names exactly the unavailable seat ids the
check returned, a refresh is triggered and the handler is unchanged. -/
theorem precheck_unavailable_aborts (h : SeatSelectionHandler) (form : FormFields)
    (chk : CheckSeatsBody) (bookResp : BookResponse)
    (hfields : truthy form.schedule_id = true ∧ truthy form.name = true
      ∧ truthy form.email = true ∧ truthy form.phone = true)
    (hsel : h.selectedSeats.length ≠ 0)
    (hna : chk.all_available = false) :
    (handleFormSubmission h form (.body chk) bookResp).requests
      = Request.checkSeatsReq (form.schedule_id.getD "") h.selectedSeats
        :: refreshSeatDisplay h
    ∧ (∀ r ∈ (handleFormSubmission h form (.body chk) bookResp).requests,
        isBookRequest r = false)
    ∧ (handleFormSubmission h form (.body chk) bookResp).alerts
      = ["Seats " ++ jsJoin chk.unavailable_seats ", "
          ++ " are no longer available. Please select different seats."]
    ∧ (handleFormSubmission h form (.body chk) bookResp).refreshed = true
    ∧ (handleFormSubmission h form (.body chk) bookResp).handler = h := by
  have hout : handleFormSubmission h form (.body chk) bookResp
      = { handler := h,
          requests := Request.checkSeatsReq (form.schedule_id.getD "") h.selectedSeats
            :: refreshSeatDisplay h,
          alerts := ["Seats " ++ jsJoin chk.unavailable_seats ", "
            ++ " are no longer available. Please select different seats."],
          redirect := none, refreshed := true } := by
    unfold handleFormSubmission
    rw [if_neg (by simp [hfields.1, hfields.2.1, hfields.2.2.1, hfields.2.2.2]),
      if_neg hsel]
    simp [checkSpecificSeats, hna]
  refine ⟨by rw [hout], ?_, by rw [hout], by rw [hout], by rw [hout]⟩
  intro r hr
  rw [hout] at hr
  simp only [List.mem_cons] at hr
  rcases hr with rfl | hr
  · rfl
  · unfold refreshSeatDisplay at hr
    split at hr
    · simp only [List.mem_singleton] at hr
      subst hr
      rfl
    · simp at hr

/-- Witness for C2: the check reports seat 2 gone; no booking request. -/
theorem precheck_unavailable_aborts_witness :
    (handleFormSubmission sampleHandler sampleForm (.body ⟨false, [2]⟩)
        (.transportError "net")).requests
      = Request.checkSeatsReq (sampleForm.schedule_id.getD "") sampleHandler.selectedSeats
        :: refreshSeatDisplay sampleHandler
    ∧ (∀ r ∈ (handleFormSubmission sampleHandler sampleForm (.body ⟨false, [2]⟩)
        (.transportError "net")).requests, isBookRequest r = false)
    ∧ (handleFormSubmission sampleHandler sampleForm (.body ⟨false, [2]⟩)
        (.transportError "net")).alerts
      = ["Seats " ++ jsJoin [2] ", "
          ++ " are no longer available. Please select different seats."]
    ∧ (handleFormSubmission sampleHandler sampleForm (.body ⟨false, [2]⟩)
        (.transportError "net")).refreshed = true
    ∧ (handleFormSubmission sampleHandler sampleForm (.body ⟨false, [2]⟩)
        (.transportError "net")).handler = sampleHandler :=
  precheck_unavailable_aborts sampleHandler sampleForm ⟨false, [2]⟩
    (.transportError "net") (by decide) (by decide) rfl

/-- Counterexample to claim C6 as stated: on a successful booking the
handler assigns the payment redirect but never clears `selectedSeats` —
after a confirmed booking of seats 2 and 9 the local selection still
holds [2, 9]. -/
theorem booking_success_selection_not_cleared_counterexample :
    (handleFormSubmission sampleHandler sampleForm (.body ⟨true, []⟩)
        (.body ⟨true, 42, none⟩)).redirect = some "/payment/42/"
    ∧ (handleFormSubmission sampleHandler sampleForm (.body ⟨true, []⟩)
        (.body ⟨true, 42, none⟩)).handler.selectedSeats = [2, 9] := by
  decide

/-- Claim C6 (amended: the navigation handoff with the returned booking
id is signalled, but the local selection is not cleared by the handler —
it only disappears with the page itself on navigation): on a successful
booking call the redirect is /payment/{booking_id}/ and the selection
set is exactly what it was before the submit. -/
theorem booking_success_redirects (h : SeatSelectionHandler) (form : FormFields)
    (chk : CheckSeatsBody) (b : BookBody)
    (hfields : truthy form.schedule_id = true ∧ truthy form.name = true
      ∧ truthy form.email = true ∧ truthy form.phone = true)
    (hsel : h.selectedSeats.length ≠ 0)
    (hfree : h.manager.bookingInProgress = false)
    (hav : chk.all_available = true)
    (hs : b.success = true) :
    (handleFormSubmission h form (.body chk) (.body b)).redirect
      = some ("/payment/" ++ toString b.booking_id ++ "/")
    ∧ (handleFormSubmission h form (.body chk) (.body b)).handler.selectedSeats
      = h.selectedSeats := by
  unfold handleFormSubmission
  rw [if_neg (by simp [hfields.1, hfields.2.1, hfields.2.2.1, hfields.2.2.2]),
    if_neg hsel]
  simp [checkSpecificSeats, hav, bookSeats, bookSeatsStart, bookSeatsFinish, hfree, hs]

/-- Witness for C6 (amended) on the concrete sample submit. -/
theorem booking_success_redirects_witness :
    (handleFormSubmission sampleHandler sampleForm (.body ⟨true, []⟩)
        (.body ⟨true, 42, none⟩)).redirect
      = some ("/payment/" ++ toString (42 : Nat) ++ "/")
    ∧ (handleFormSubmission sampleHandler sampleForm (.body ⟨true, []⟩)
        (.body ⟨true, 42, none⟩)).handler.selectedSeats = sampleHandler.selectedSeats :=
  booking_success_redirects sampleHandler sampleForm ⟨true, []⟩ ⟨true, 42, none⟩
    (by decide) (by decide) rfl rfl rfl

end BusTicket
